import Mathlib

/-!
Verification of the ltijs LTI 1.3 Provider core (`src/Provider/Provider.js`)
through a shallow embedding in Lean 4.

The JavaScript source is translated as follows: the pluggable Store is a record
of lists, one per logical collection; `Database.Get` returns the matched rows or
`false` (modelled as `Option`); JS exceptions caught by `try / catch` become
`Except` values or explicit outcome constructors; JS truthiness on optional
strings (`undefined` / `null` / `""` are falsy) is made explicit.  Collaborator
modules of this repository that are not part of the provided sources
(`Utils/Auth.js`, `Utils/Request.js`, `Utils/Platform.js`, `Utils/Database.js`)
are modelled from the specification where their behaviour decides a property;
each such definition carries a doc comment saying so.
-/

namespace Ltijs

/-- JS truthiness of an optional string value: `undefined`, `null` and the
empty string are falsy. -/
def jsTruthyS : Option String → Bool
  | none => false
  | some s => !(s == "")

/-- JS `a || b` where `a` is an optional string and `b` a string default:
falsy `a` (absent or empty) yields the default. -/
def jsOr : Option String → String → String
  | none, d => d
  | some s, d => if s == "" then d else s

/-- `authConfig = { method, key }` of a platform trust record. -/
structure AuthConfig where
  method : String
  key : String
deriving DecidableEq, Repr

/-- A row of the `platform` collection, as written by `registerPlatform`.
A `Utils/Platform` instance is represented by the same record (the class is a
thin wrapper over exactly these constructor arguments). -/
structure PlatformRow where
  platformName : String
  platformUrl : String
  clientId : String
  authEndpoint : String
  accesstokenEndpoint : String
  kid : String
  authConfig : AuthConfig
deriving DecidableEq, Repr

/-- A row of the `publickey` / `privatekey` collections, keyed by `kid`. -/
structure KeyRow where
  kid : String
  platformUrl : String
deriving DecidableEq, Repr

/-- The `userInfo` sub-record of a stored IdToken. -/
structure UserInfo where
  given_name : Option String
  family_name : Option String
  name : Option String
  email : Option String
deriving DecidableEq, Repr

/-- A row of the `idtoken` collection, keyed by `(iss, deploymentId, user)`.
Claim values that the Provider merely copies around are represented as opaque
optional strings. -/
structure IdTokenRow where
  iss : String
  user : String
  roles : Option String
  userInfo : UserInfo
  platformInfo : Option String
  deploymentId : String
  lis : Option String
  endpoint : Option String
  namesRoles : Option String
deriving DecidableEq, Repr

/-- The LTI context claim (only its `id` matters to the Provider core). -/
structure ContextClaim where
  id : String
deriving DecidableEq, Repr

/-- The LTI resource_link claim (only its `id` matters to the Provider core). -/
structure ResourceClaim where
  id : String
deriving DecidableEq, Repr

/-- A row of the `contexttoken` collection, keyed by `(contextId, user)`. -/
structure ContextTokenRow where
  contextId : String
  path : String
  user : String
  targetLinkUri : String
  context : Option ContextClaim
  resource : Option ResourceClaim
  custom : Option String
  launchPresentation : Option String
  messageType : String
  version : String
  deepLinkingSettings : Option String
deriving DecidableEq, Repr

/-- The Store: one list per logical collection
(`platform, publickey, privatekey, idtoken, contexttoken`). -/
structure Store where
  platform : List PlatformRow
  publickey : List KeyRow
  privatekey : List KeyRow
  idtoken : List IdTokenRow
  contexttoken : List ContextTokenRow
deriving DecidableEq, Repr

/-- `Database.Get` over a collection with a filter already applied: the matched
rows, or `false` (here `none`) when there are none. -/
def dbGetAll {α : Type} (rows : List α) : Option (List α) :=
  if rows.isEmpty then none else some rows

/-- Taking the first returned row (`rows[0]`), `undefined` when there is none. -/
def dbGetFirst {α : Type} (rows : List α) : Option α :=
  rows.head?

/-- `Database.Replace` (upsert): drop the rows matched by the filter and store
the new value. -/
def dbReplace {α : Type} (rows : List α) (matched : α → Bool) (value : α) : List α :=
  rows.filter (fun r => !(matched r)) ++ [value]

/-- `Database.Modify`: patch every row matched by the filter, leaving the
unmatched rows and all unpatched fields unchanged. -/
def dbModify {α : Type} (rows : List α) (matched : α → Bool) (patch : α → α) : List α :=
  rows.map (fun r => if matched r then patch r else r)

/-- The configurable reserved routes and flags of the Provider. -/
structure Config where
  loginRoute : String
  appRoute : String
  sessionTimeoutRoute : String
  invalidTokenRoute : String
  keysetRoute : String
  devMode : Bool
deriving DecidableEq, Repr

/-- The pre-initiated defaults of the Provider class. -/
def defaultConfig : Config :=
  { loginRoute := "/login", appRoute := "/", sessionTimeoutRoute := "/sessionTimeout",
    invalidTokenRoute := "/invalidToken", keysetRoute := "/keys", devMode := false }

/-! ## whitelist -/

/-- An argument to `whitelist(...routes)`: either a bare string route or an
object with optional `route` and `method` fields (absent fields are
`undefined`). -/
inductive WhitelistArg where
  | str (route : String)
  | obj (route : Option String) (method : Option String)
deriving DecidableEq, Repr

/-- JS truthiness of a rest-parameter value: `routes` in
`whitelist (...routes)` is always an array, and an array — even an empty one —
is truthy in JavaScript, so `!routes` is always `false`. -/
def restParamFalsy {α : Type} (_ : List α) : Bool := false

/-- One iteration of the `for (const route of routes)` loop body of
`whitelist`: objects must have truthy `route` and `method` fields and are
stored as `route + '-method-' + method.toUpperCase()`; strings are stored as
given. -/
def formatWhitelistEntry : WhitelistArg → Except String String
  | .str r => .ok r
  | .obj r m =>
    if !(jsTruthyS r) || !(jsTruthyS m) then .error "Wrong object format on route."
    else .ok ((r.getD "") ++ "-method-" ++ (m.getD "").toUpper)

/-- `Provider.whitelist(...routes)`: the dead `if (!routes) throw` guard, then
the formatting loop (the first bad entry throws). On success the formatted
list becomes the new whitelist. -/
def whitelistModel (routes : List WhitelistArg) : Except String (List String) :=
  if restParamFalsy routes then .error "No route passed."
  else routes.mapM formatWhitelistEntry

/-! ## getPlatform / getAllPlatforms -/

/-- A `new Platform(...)` instance as observed through its accessors: the
class (`Utils/Platform.js`, not under `src/`) wraps exactly the stored fields,
so it is represented by the row itself. -/
def mkPlatform (obj : PlatformRow) : PlatformRow := obj

/-- `Provider.getPlatform(url)`: `Database.Get` on `platform` by
`platformUrl`; `false` when there is no row (`!plat` or `!plat[0]`), otherwise
a `Platform` built from the first row. -/
def getPlatformModel (store : Store) (u : String) : Option PlatformRow :=
  match dbGetAll (store.platform.filter (fun r => r.platformUrl == u)) with
  | none => none
  | some plat =>
    match dbGetFirst plat with
    | none => none
    | some obj => some (mkPlatform obj)

/-- `Provider.getAllPlatforms()`: enumerate the `platform` collection; a falsy
`Get` result yields the empty array, otherwise one `Platform` per row. -/
def getAllPlatforms (store : Store) : List PlatformRow :=
  match dbGetAll store.platform with
  | some platforms => platforms.map mkPlatform
  | none => []

/-! ## encodeURIComponent and Buffer base64 -/

/-- Upper-case hexadecimal digit, as produced by percent-encoding. -/
def hexDigitUpper (n : Nat) : Char :=
  if n < 10 then Char.ofNat (48 + n) else Char.ofNat (55 + n)

/-- UTF-8 bytes of a Unicode code point. -/
def utf8BytesOfCode (n : Nat) : List Nat :=
  if n < 128 then [n]
  else if n < 2048 then [192 + n / 64, 128 + n % 64]
  else if n < 65536 then [224 + n / 4096, 128 + (n / 64) % 64, 128 + n % 64]
  else [240 + n / 262144, 128 + (n / 4096) % 64, 128 + (n / 64) % 64, 128 + n % 64]

/-- UTF-8 encoding of a string. -/
def utf8Encode (s : String) : List Nat :=
  (s.data.map (fun c => utf8BytesOfCode c.toNat)).flatten

/-- The characters `encodeURIComponent` leaves unescaped:
alphanumerics and `- _ . ! ~ * ' ( )` (39 is the apostrophe code point). -/
def isURIUnreserved (c : Char) : Bool :=
  c.isAlphanum || c == '-' || c == '_' || c == '.' || c == '!' || c == '~' ||
    c == '*' || c == Char.ofNat 39 || c == '(' || c == ')'

/-- `%XX` percent-encoding of one byte. -/
def percentByte (b : Nat) : String :=
  String.mk ['%', hexDigitUpper (b / 16), hexDigitUpper (b % 16)]

/-- JavaScript `encodeURIComponent`: unreserved characters pass through,
every other character is percent-encoded byte-wise in UTF-8. -/
def encodeURIComponent (s : String) : String :=
  String.join (s.data.map (fun c =>
    if isURIUnreserved c then String.singleton c
    else String.join ((utf8BytesOfCode c.toNat).map percentByte)))

/-- A digit of the standard base64 alphabet. -/
def base64Char (n : Nat) : Char :=
  if n < 26 then Char.ofNat (65 + n)
  else if n < 52 then Char.ofNat (97 + (n - 26))
  else if n < 62 then Char.ofNat (48 + (n - 52))
  else if n == 62 then '+' else '/'

/-- Standard base64 with padding over a byte list, three bytes at a time. -/
def base64Encode : List Nat → String
  | [] => ""
  | [b1] =>
    String.mk [base64Char (b1 / 4), base64Char ((b1 % 4) * 16), '=', '=']
  | [b1, b2] =>
    String.mk [base64Char (b1 / 4), base64Char ((b1 % 4) * 16 + b2 / 16),
      base64Char ((b2 % 16) * 4), '=']
  | b1 :: b2 :: b3 :: rest =>
    String.mk [base64Char (b1 / 4), base64Char ((b1 % 4) * 16 + b2 / 16),
      base64Char ((b2 % 16) * 4 + b3 / 64), base64Char (b3 % 64)] ++ base64Encode rest

/-- Node `Buffer.from(s).toString('base64')`. -/
def bufferBase64 (s : String) : String :=
  base64Encode (utf8Encode s)

/-! ## registerPlatform -/

/-- The argument object of `registerPlatform`; absent fields are `undefined`. -/
structure RegisterArgs where
  url : Option String
  name : Option String
  clientId : Option String
  authenticationEndpoint : Option String
  accesstokenEndpoint : Option String
  authConfig : Option AuthConfig
deriving DecidableEq, Repr

/-- Modelled from the spec: `Auth.generateProviderKeyPair`
(`src/Utils/Auth.js` is not among the provided sources) generates a fresh
key pair for the platform, stores the private key encrypted under the master
key and the public key, and returns the new `kid` (§4.6 `generate`).  The
fresh `kid` itself is supplied as an argument. -/
def generateProviderKeyPair (store : Store) (platformUrl : String) (newKid : String) :
    String × Store :=
  (newKid,
    { store with
      publickey := store.publickey ++ [{ kid := newKid, platformUrl := platformUrl }],
      privatekey := store.privatekey ++ [{ kid := newKid, platformUrl := platformUrl }] })

/-- The catch handler of `registerPlatform`: delete the `publickey` and
`privatekey` rows by `kid` (`kid` may still be `undefined`, matching nothing)
and the `platform` row by `platformUrl`, then rethrow. -/
def registerRollback (store : Store) (kid : Option String) (platformUrl : String) : Store :=
  { store with
    publickey := store.publickey.filter (fun r => !(kid == some r.kid)),
    privatekey := store.privatekey.filter (fun r => !(kid == some r.kid)),
    platform := store.platform.filter (fun r => !(r.platformUrl == platformUrl)) }

/-- `Provider.registerPlatform(platform)`.  `newKid` supplies the fresh kid
for the key-generation step; `replaceFails` injects a failure of the
`Database.Replace` that stores the new platform row (any rejection between key
generation and the successful upsert lands in the same catch handler).
Returns the thrown error or the returned `Platform`, with the final Store. -/
def registerPlatform (store : Store) (args : RegisterArgs) (newKid : String)
    (replaceFails : Bool) : Except String PlatformRow × Store :=
  if !(jsTruthyS args.url) then
    -- thrown before the try block: no rollback
    (.error "Error. Missing platform Url.", store)
  else
    let u := args.url.getD ""
    match getPlatformModel store u with
    | none =>
      if !(jsTruthyS args.name) || !(jsTruthyS args.clientId) ||
          !(jsTruthyS args.authenticationEndpoint) || !(jsTruthyS args.accesstokenEndpoint) ||
          args.authConfig.isNone then
        -- thrown inside the try block with kid still undefined
        (.error "Error registering platform. Missing arguments.", registerRollback store none u)
      else
        let gen := generateProviderKeyPair store u newKid
        let kid := gen.1
        let store1 := gen.2
        if replaceFails then
          (.error "Error registering platform.", registerRollback store1 (some kid) u)
        else
          let row : PlatformRow :=
            { platformName := args.name.getD "", platformUrl := u,
              clientId := args.clientId.getD "",
              authEndpoint := args.authenticationEndpoint.getD "",
              accesstokenEndpoint := args.accesstokenEndpoint.getD "",
              kid := kid, authConfig := args.authConfig.getD ⟨"", ""⟩ }
          (.ok row,
            { store1 with
              platform := dbReplace store1.platform (fun r => r.platformUrl == u) row })
    | some ex =>
      -- platform already registered: merge the truthy argument fields over the
      -- accessor values of the existing record; kid is not part of the patch
      let pn := jsOr args.name ex.platformName
      let ci := jsOr args.clientId ex.clientId
      let ae := jsOr args.authenticationEndpoint ex.authEndpoint
      let ate := jsOr args.accesstokenEndpoint ex.accesstokenEndpoint
      let ac := args.authConfig.getD ex.authConfig
      let patch : PlatformRow → PlatformRow := fun r =>
        { r with
          platformName := pn, clientId := ci, authEndpoint := ae,
          accesstokenEndpoint := ate, authConfig := ac }
      (.ok ex,
        { store with
          platform := dbModify store.platform (fun r => r.platformUrl == u) patch })

/-! ## JSON values and the jsonwebtoken codec (LTIK) -/

/-- The fragment of JSON the LTIK payload lives in: strings and objects. -/
inductive Json where
  | str : String → Json
  | obj : List (String × Json) → Json
deriving Repr

/-- Field lookup in a JSON object (first match wins, as in a JS object). -/
def jsonLookup (fields : List (String × Json)) (k : String) : Option Json :=
  match fields.find? (fun p => p.1 == k) with
  | some p => some p.2
  | none => none

/-- An executable keyed hash over strings standing in for HMAC-SHA256. -/
def strHash (s : String) : Nat :=
  s.data.foldl (fun a c => (a * 131 + c.toNat) % (2 ^ 64)) 7

mutual

/-- Executable hash of a JSON value (the MAC input of the model). -/
def jsonHash : Json → Nat
  | .str s => (2 * strHash s + 1) % (2 ^ 64)
  | .obj fields => (2 * jsonFieldsHash fields) % (2 ^ 64)

/-- Executable hash of a JSON object field list. -/
def jsonFieldsHash : List (String × Json) → Nat
  | [] => 3
  | (k, v) :: rest => (strHash k + 131 * jsonHash v + 1000003 * jsonFieldsHash rest) % (2 ^ 64)

end

/-- A compact JWS as the Provider sees it: the (decoded) payload together with
its MAC. -/
structure SignedJwt where
  payload : Json
  sig : Nat
deriving Repr

/-- Modelled from the spec: `jwt.sign(payload, key)` of the jsonwebtoken
dependency — a compact JWS over the JSON payload, HS256 under the master
encryption key, with the MAC given by an executable keyed hash (§4.5: encode is
compact JWS, HS256, no `exp`). -/
def jwtSignJson (key : String) (payload : Json) : SignedJwt :=
  { payload := payload, sig := (strHash key * 31 + jsonHash payload) % (2 ^ 64) }

/-- Modelled from the spec: `jwt.verify(token, key)` — recompute the MAC with
the same key, reject on mismatch, and return the decoded payload (§4.5: decode
is signature verify only). -/
def jwtVerifyJson (key : String) (t : SignedJwt) : Option Json :=
  if (strHash key * 31 + jsonHash t.payload) % (2 ^ 64) == t.sig then some t.payload else none

/-- The LTIK payload `{ platformUrl, deploymentId, platformCode, contextId,
user, s }` minted at session materialization. -/
structure LtikPayload where
  platformUrl : String
  deploymentId : String
  platformCode : String
  contextId : String
  user : String
  s : String
deriving DecidableEq, Repr

/-- The JSON object `jwt.sign` serializes for an LTIK payload. -/
def ltikToJson (p : LtikPayload) : Json :=
  .obj [("platformUrl", .str p.platformUrl), ("deploymentId", .str p.deploymentId),
        ("platformCode", .str p.platformCode), ("contextId", .str p.contextId),
        ("user", .str p.user), ("s", .str p.s)]

/-- Read a JSON string value out of an optional field. -/
def asJsonStr : Option Json → Option String
  | some (.str s) => some s
  | _ => none

/-- Reading the LTIK fields back off a decoded payload, as the steady-state
handler does (`validLtik.platformUrl`, ...). -/
def ltikOfJson : Json → Option LtikPayload
  | .obj fields =>
    match asJsonStr (jsonLookup fields "platformUrl"),
        asJsonStr (jsonLookup fields "deploymentId"),
        asJsonStr (jsonLookup fields "platformCode"),
        asJsonStr (jsonLookup fields "contextId"),
        asJsonStr (jsonLookup fields "user"),
        asJsonStr (jsonLookup fields "s") with
    | some pu, some dep, some pc, some cid, some usr, some st =>
      some { platformUrl := pu, deploymentId := dep, platformCode := pc,
             contextId := cid, user := usr, s := st }
    | _, _, _, _, _, _ => none
  | _ => none

/-- Minting an LTIK: `jwt.sign(newLtikObj, ENCRYPTIONKEY)`. -/
def ltikSign (key : String) (p : LtikPayload) : SignedJwt :=
  jwtSignJson key (ltikToJson p)

/-- Verifying an LTIK and reading its fields:
`jwt.verify(ltik, ENCRYPTIONKEY)` followed by the field accesses. -/
def ltikVerify (key : String) (t : SignedJwt) : Option LtikPayload :=
  (jwtVerifyJson key t).bind ltikOfJson

/-! ## Validated id_token claims and the callback branch -/

/-- The claim map returned by a successful `Auth.validateToken`: the fields the
Provider core reads.  Optional claims are `Option`; claim values the Provider
only copies are opaque optional strings. -/
structure Claims where
  iss : String
  sub : String
  deployment_id : String
  context : Option ContextClaim
  resource_link : Option ResourceClaim
  roles : Option String
  given_name : Option String
  family_name : Option String
  name : Option String
  email : Option String
  tool_platform : Option String
  lis : Option String
  endpoint : Option String
  namesroleservice : Option String
  target_link_uri : String
  custom : Option String
  launch_presentation : Option String
  message_type : String
  version : String
  deep_linking_settings : Option String
deriving DecidableEq, Repr

/-- The callback request data the branch reads: the request path, the base
url, and the `state` body parameter. -/
structure CallbackRequest where
  path : String
  baseUrl : String
  state : String
deriving DecidableEq, Repr

/-- What the callback branch does to the response and the Store: rows written,
cookies cleared and set, the redirect target, and the minted LTIK (which the
real code appends to the redirect's query string as `ltik`). -/
structure CallbackEffects where
  store : Store
  clearedCookies : List String
  setCookies : List (String × String)
  redirect : Option String
  mintedLtik : Option SignedJwt
deriving Repr

/-- The `id_token` branch of `sessionValidator` (callback / session
materialization).  The result of `Auth.validateToken` is passed in as an
`Except`: modelled from the spec, since `src/Utils/Auth.js` is not among the
provided sources — §4.3 and §7 have validation fail by raising
`MalformedToken` / `BadSignature` / `InvalidClaims`, so a failure is a
rejected `await` that jumps to the enclosing catch handler, which redirects to
`invalidTokenRoute`; the `res.clearCookie` call sits after the `await` and is
only reached on success. -/
def callbackBranch (key : String) (cfg : Config) (store : Store) (req : CallbackRequest)
    (validated : Except Unit Claims) : CallbackEffects :=
  match validated with
  | .error _ =>
    { store := store, clearedCookies := [], setCookies := [],
      redirect := some (req.baseUrl ++ cfg.invalidTokenRoute), mintedLtik := none }
  | .ok valid =>
    let cleared := ["state" ++ req.state]
    let courseId := match valid.context with | some c => c.id | none => "NF"
    let resourceId := match valid.resource_link with | some r => r.id | none => "NF"
    let deploymentId := valid.deployment_id
    let contextId := encodeURIComponent (valid.iss ++ deploymentId ++ courseId ++ "_" ++ resourceId)
    let platformCode := encodeURIComponent ("lti" ++ bufferBase64 (valid.iss ++ deploymentId))
    let platformToken : IdTokenRow :=
      { iss := valid.iss, user := valid.sub, roles := valid.roles,
        userInfo := { given_name := valid.given_name, family_name := valid.family_name,
                      name := valid.name, email := valid.email },
        platformInfo := valid.tool_platform, deploymentId := valid.deployment_id,
        lis := valid.lis, endpoint := valid.endpoint, namesRoles := valid.namesroleservice }
    let store1 :=
      { store with
        idtoken := dbReplace store.idtoken
          (fun r => r.iss == valid.iss && r.deploymentId == deploymentId && r.user == valid.sub)
          platformToken }
    let contextToken : ContextTokenRow :=
      { contextId := contextId, path := req.path, user := valid.sub,
        targetLinkUri := valid.target_link_uri, context := valid.context,
        resource := valid.resource_link, custom := valid.custom,
        launchPresentation := valid.launch_presentation, messageType := valid.message_type,
        version := valid.version, deepLinkingSettings := valid.deep_linking_settings }
    let store2 :=
      { store1 with
        contexttoken := dbReplace store1.contexttoken
          (fun r => r.contextId == contextId && r.user == valid.sub) contextToken }
    let newLtikObj : LtikPayload :=
      { platformUrl := valid.iss, deploymentId := deploymentId, platformCode := platformCode,
        contextId := contextId, user := valid.sub, s := req.state }
    let newLtik := ltikSign key newLtikObj
    { store := store2, clearedCookies := cleared, setCookies := [(platformCode, valid.sub)],
      redirect := some (req.baseUrl ++ req.path), mintedLtik := some newLtik }

/-! ## Steady-state request authentication -/

/-- What the steady-state branch does with a signature-valid LTIK: pass the
request on with the session state attached, or redirect. -/
inductive SteadyOutcome where
  | next (token : IdTokenRow) (context : ContextTokenRow)
  | redirect (target : String)
deriving DecidableEq, Repr

/-- Signed-cookie lookup: the value of the first cookie with the given name. -/
def cookieLookup (cookies : List (String × String)) (n : String) : Option String :=
  match cookies.find? (fun p => p.1 == n) with
  | some p => some p.2
  | none => none

/-- JS falsiness of a cookie value (`undefined` or `""`). -/
def jsFalsyOpt : Option String → Bool
  | none => true
  | some s => s == ""

/-- The steady-state branch of `sessionValidator` after `jwt.verify`
succeeded on the LTIK: session-cookie consistency check, then the IdToken and
ContextToken loads.  The `throw` on a missing row is caught by the
enclosing catch handler, which redirects to `invalidTokenRoute`. -/
def steadyAuth (cfg : Config) (store : Store) (cookies : List (String × String))
    (baseUrl : String) (p : LtikPayload) : SteadyOutcome :=
  let cookieUser := cookieLookup cookies p.platformCode
  -- `let user = validLtik.user`, then `user = false` on a failed check
  let user : Option String :=
    if jsFalsyOpt cookieUser then
      if !cfg.devMode then none else some p.user
    else if !(p.user == cookieUser.getD "") then none else some p.user
  match user with
  | some u =>
    if u == "" then
      -- `if (user)` is false on the empty string
      .redirect (baseUrl ++ cfg.sessionTimeoutRoute)
    else
      match dbGetFirst (store.idtoken.filter
          (fun r => r.iss == p.platformUrl && r.deploymentId == p.deploymentId && r.user == u)) with
      | none => .redirect (baseUrl ++ cfg.invalidTokenRoute)
      | some idTok =>
        match dbGetFirst (store.contexttoken.filter
            (fun r => r.contextId == p.contextId && r.user == u)) with
        | none => .redirect (baseUrl ++ cfg.invalidTokenRoute)
        | some ctxTok => .next idTok ctxTok
  | none => .redirect (baseUrl ++ cfg.sessionTimeoutRoute)

/-- Whether the steady-state branch passed the request to the next handler. -/
def isNextB : SteadyOutcome → Bool
  | .next _ _ => true
  | .redirect _ => false

/-! ## Login phase -/

/-- What the login handler does to the response: an error status, a redirect
target, and the cookies set on the response so far. -/
structure LoginEffects where
  status : Option Nat
  redirect : Option String
  setCookies : List (String × String)
deriving DecidableEq, Repr

/-- The `loginRoute` handler.  `state` supplies the generated nonce.
`buildFails` injects a rejection of the awaits that run after the state cookie
has been set on the response (`Request.ltiAdvantageLogin` and
`platform.platformAuthEndpoint()`, both outside the provided sources and
modelled from the spec's step 4, which like every step may error); the catch
handler answers `res.sendStatus(400)`, leaving any cookie already set on the
response in place.  A falsy `iss` makes `getPlatform` throw before any cookie
is set; an unknown platform answers 401. -/
def loginHandler (store : Store) (iss : Option String) (state : String)
    (buildFails : Bool) : LoginEffects :=
  if !(jsTruthyS iss) then
    { status := some 400, redirect := none, setCookies := [] }
  else
    let u := iss.getD ""
    match getPlatformModel store u with
    | some platform =>
      let stateCookie := ("state" ++ state, u)
      if buildFails then
        { status := some 400, redirect := none, setCookies := [stateCookie] }
      else
        -- redirect to the platform's auth endpoint with the OIDC query appended
        { status := none, redirect := some platform.authEndpoint, setCookies := [stateCookie] }
    | none =>
      { status := some 401, redirect := none, setCookies := [] }

/-! ## Helper lemmas -/

/-- The new row of an upsert is in the collection. -/
lemma mem_dbReplace {α : Type} (l : List α) (p : α → Bool) (v : α) :
    v ∈ dbReplace l p v := by
  simp [dbReplace]

/-- `getPlatformModel` is the first stored row with the given url. -/
lemma getPlatformModel_eq (store : Store) (u : String) :
    getPlatformModel store u = (store.platform.filter (fun r => r.platformUrl == u)).head? := by
  unfold getPlatformModel dbGetAll dbGetFirst mkPlatform
  cases h : store.platform.filter (fun r => r.platformUrl == u) with
  | nil => simp [h]
  | cons a l => simp [h]

/-- Filtering a patched collection with a predicate the patch preserves. -/
lemma filter_dbModify {α : Type} (l : List α) (p : α → Bool) (g : α → α)
    (hg : ∀ a, p (g a) = p a) :
    (dbModify l p g).filter p = (l.filter p).map g := by
  induction l with
  | nil => rfl
  | cons a l ih =>
    simp only [dbModify, List.map] at ih ⊢
    by_cases h : p a = true
    · simp [List.filter, h, hg, ih]
    · have h' : p a = false := by simpa using h
      simp [List.filter, h', hg, ih]

/-- The LTIK codec round-trip, generically over payloads. -/
lemma ltikVerify_ltikSign (key : String) (p : LtikPayload) :
    ltikVerify key (ltikSign key p) = some p := by
  cases p
  simp [ltikVerify, ltikSign, jwtSignJson, jwtVerifyJson, ltikToJson, ltikOfJson,
    jsonLookup, asJsonStr, List.find?]

/-! ## Claim theorems -/

/-- C2 (amended): for every callback request whose id_token fails
TokenValidator validation, the response is a redirect to `invalidTokenRoute`,
but the `state<state>` cookie is NOT cleared (the `clearCookie` call sits
after the validation `await` and is only reached on success), and nothing is
written to the Store. -/
theorem callback_validation_failure (key : String) (cfg : Config) (store : Store)
    (req : CallbackRequest) :
    (callbackBranch key cfg store req (.error ())).redirect
        = some (req.baseUrl ++ cfg.invalidTokenRoute) ∧
      (callbackBranch key cfg store req (.error ())).clearedCookies = [] ∧
      (callbackBranch key cfg store req (.error ())).setCookies = [] ∧
      (callbackBranch key cfg store req (.error ())).store = store :=
  ⟨rfl, rfl, rfl, rfl⟩

/-- C2 counterexample: a concrete failing callback (state parameter `"abc"`,
default routes) redirects to `invalidTokenRoute` with an empty
`clearedCookies` list — the `state abc` cookie is still set afterwards,
contrary to the claim. -/
theorem callback_validation_failure_cex :
    (callbackBranch "secret" defaultConfig ⟨[], [], [], [], []⟩ ⟨"/", "", "abc"⟩
        (.error ())).clearedCookies = [] ∧
      (callbackBranch "secret" defaultConfig ⟨[], [], [], [], []⟩ ⟨"/", "", "abc"⟩
        (.error ())).redirect = some "/invalidToken" :=
  ⟨rfl, rfl⟩

/-- C4: a `registerPlatform` call that fails after the new key pair has been
generated (here: the `Database.Replace` storing the platform row rejects)
rolls back before rethrowing: the new public key row, the new private key row
and any partial Platform row are deleted, so the Store is left exactly as it
was before the call. -/
theorem registerPlatform_rollback (store : Store) (args : RegisterArgs) (newKid u : String)
    (hurl : args.url = some u) (hu : u ≠ "")
    (hnew : store.platform.filter (fun r => r.platformUrl == u) = [])
    (hname : jsTruthyS args.name = true) (hcid : jsTruthyS args.clientId = true)
    (hauth : jsTruthyS args.authenticationEndpoint = true)
    (hate : jsTruthyS args.accesstokenEndpoint = true)
    (hac : args.authConfig.isSome = true)
    (hpubFresh : ∀ r ∈ store.publickey, r.kid ≠ newKid)
    (hprivFresh : ∀ r ∈ store.privatekey, r.kid ≠ newKid) :
    (registerPlatform store args newKid true).1 = .error "Error registering platform." ∧
      (registerPlatform store args newKid true).2 = store := by
  have hu' : (u == "") = false := by simp [hu]
  have hne : getPlatformModel store u = none := by
    rw [getPlatformModel_eq, hnew]
    rfl
  have hplat : store.platform.filter (fun r => !(r.platformUrl == u)) = store.platform := by
    apply List.filter_eq_self.mpr
    intro a ha
    have := List.filter_eq_nil_iff.mp hnew a ha
    simpa using this
  have hpub : store.publickey.filter (fun r => !(newKid == r.kid)) = store.publickey := by
    apply List.filter_eq_self.mpr
    intro a ha
    have := hpubFresh a ha
    simp [Ne.symm this]
  have hpriv : store.privatekey.filter (fun r => !(newKid == r.kid)) = store.privatekey := by
    apply List.filter_eq_self.mpr
    intro a ha
    have := hprivFresh a ha
    simp [Ne.symm this]
  obtain ⟨aurl, aname, acid, aauth, aate, aac⟩ := args
  simp only at hurl
  subst hurl
  rcases aname with _ | nm
  · simp [jsTruthyS] at hname
  rcases acid with _ | ci
  · simp [jsTruthyS] at hcid
  rcases aauth with _ | ae
  · simp [jsTruthyS] at hauth
  rcases aate with _ | ate
  · simp [jsTruthyS] at hate
  rcases aac with _ | ac
  · simp at hac
  simp only [jsTruthyS] at hname hcid hauth hate
  constructor
  · simp [registerPlatform, jsTruthyS, hu', hne, hname, hcid, hauth, hate]
  · simp [registerPlatform, jsTruthyS, hu', hne, hname, hcid, hauth, hate,
      generateProviderKeyPair, registerRollback, hplat, hpub, hpriv]

/-- C4 witness: registering a fresh platform into the empty Store with a
failing `Replace` errors out and leaves the Store empty. -/
theorem registerPlatform_rollback_witness :
    (registerPlatform ⟨[], [], [], [], []⟩
        ⟨some "https://lms.example/", some "Lms", some "C",
          some "https://lms.example/auth", some "https://lms.example/token",
          some ⟨"RSA_KEY", "PEM"⟩⟩ "kid1" true).2 = ⟨[], [], [], [], []⟩ :=
  (registerPlatform_rollback ⟨[], [], [], [], []⟩
    ⟨some "https://lms.example/", some "Lms", some "C",
      some "https://lms.example/auth", some "https://lms.example/token",
      some ⟨"RSA_KEY", "PEM"⟩⟩ "kid1" "https://lms.example/"
    rfl (by decide) rfl (by decide) (by decide) (by decide) (by decide) (by decide)
    (by simp) (by simp)).2

/-- C5: `registerPlatform` on an already-registered url generates no key
pair, merges the truthy argument fields into the existing record (fields not
supplied keep their stored values and the stored kid is unchanged), and
returns the existing platform. -/
theorem registerPlatform_merge (store : Store) (args : RegisterArgs) (newKid u : String)
    (replaceFails : Bool) (ex : PlatformRow)
    (hurl : args.url = some u) (hu : u ≠ "")
    (hex : getPlatformModel store u = some ex) :
    (registerPlatform store args newKid replaceFails).1 = .ok ex ∧
      (registerPlatform store args newKid replaceFails).2.publickey = store.publickey ∧
      (registerPlatform store args newKid replaceFails).2.privatekey = store.privatekey ∧
      getPlatformModel (registerPlatform store args newKid replaceFails).2 u =
        some { ex with
          platformName := jsOr args.name ex.platformName,
          clientId := jsOr args.clientId ex.clientId,
          authEndpoint := jsOr args.authenticationEndpoint ex.authEndpoint,
          accesstokenEndpoint := jsOr args.accesstokenEndpoint ex.accesstokenEndpoint,
          authConfig := args.authConfig.getD ex.authConfig } := by
  have hu' : (u == "") = false := by simp [hu]
  have hstep : registerPlatform store args newKid replaceFails =
      (.ok ex,
        { store with
          platform := dbModify store.platform (fun r => r.platformUrl == u) (fun r =>
            { r with
              platformName := jsOr args.name ex.platformName,
              clientId := jsOr args.clientId ex.clientId,
              authEndpoint := jsOr args.authenticationEndpoint ex.authEndpoint,
              accesstokenEndpoint := jsOr args.accesstokenEndpoint ex.accesstokenEndpoint,
              authConfig := args.authConfig.getD ex.authConfig }) }) := by
    rw [registerPlatform, hurl]
    simp [jsTruthyS, hu', hex]
  rw [hstep]
  refine ⟨rfl, rfl, rfl, ?_⟩
  rw [getPlatformModel_eq]
  have hfd := filter_dbModify store.platform (fun r => r.platformUrl == u)
    (fun r =>
      { r with
        platformName := jsOr args.name ex.platformName,
        clientId := jsOr args.clientId ex.clientId,
        authEndpoint := jsOr args.authenticationEndpoint ex.authEndpoint,
        accesstokenEndpoint := jsOr args.accesstokenEndpoint ex.accesstokenEndpoint,
        authConfig := args.authConfig.getD ex.authConfig })
    (fun a => rfl)
  have hhead : (store.platform.filter (fun r => r.platformUrl == u)).head? = some ex := by
    rw [← getPlatformModel_eq]
    exact hex
  show ((dbModify store.platform (fun r => r.platformUrl == u) _).filter
      (fun r => r.platformUrl == u)).head? = _
  rw [hfd, List.head?_map, hhead]
  rfl

/-- C5 witness: re-registering an existing platform with only a new name
returns the stored record, generates no keys, and the stored row afterwards
has the new name, the old remaining fields and the old kid. -/
theorem registerPlatform_merge_witness :
    (registerPlatform
        ⟨[⟨"Old", "https://lms.example/", "C", "a", "t", "kidOld", ⟨"RSA_KEY", "PEM"⟩⟩],
          [], [], [], []⟩
        ⟨some "https://lms.example/", some "New", none, none, none, none⟩
        "kidZ" false).1
      = .ok ⟨"Old", "https://lms.example/", "C", "a", "t", "kidOld", ⟨"RSA_KEY", "PEM"⟩⟩ :=
  (registerPlatform_merge
    ⟨[⟨"Old", "https://lms.example/", "C", "a", "t", "kidOld", ⟨"RSA_KEY", "PEM"⟩⟩],
      [], [], [], []⟩
    ⟨some "https://lms.example/", some "New", none, none, none, none⟩
    "kidZ" "https://lms.example/" false
    ⟨"Old", "https://lms.example/", "C", "a", "t", "kidOld", ⟨"RSA_KEY", "PEM"⟩⟩
    rfl (by decide) (by decide)).1

/-- C6: for every validated launch, the ContextToken row the callback stores
has key field `contextId = urlencode(iss ++ deploymentId ++ courseId ++ "_"
++ resourceId)`, where courseId / resourceId are the context and
resource_link claim ids, defaulting to the literal `"NF"` when the claim is
absent. -/
theorem launch_contextId_key (key : String) (cfg : Config) (store : Store)
    (req : CallbackRequest) (claims : Claims) :
    ∃ ctx ∈ (callbackBranch key cfg store req (.ok claims)).store.contexttoken,
      ctx.user = claims.sub ∧ ctx.path = req.path ∧
      ctx.contextId = encodeURIComponent (claims.iss ++ claims.deployment_id ++
        (match claims.context with | some c => c.id | none => "NF") ++ "_" ++
        (match claims.resource_link with | some r => r.id | none => "NF")) := by
  simp only [callbackBranch]
  exact ⟨_, mem_dbReplace _ _ _, rfl, rfl, rfl⟩

/-- C1 (amended): for a steady-state request with a signature-valid LTIK
whose `user` is non-empty: when the Store holds the matching IdToken and
ContextToken rows, the request is passed on with session state attached iff
the signed cookie named by the LTIK's `platformCode` equals the LTIK's
`user`, or that cookie is absent or empty and devMode is enabled; and, with
no condition on the Store, a cookie present with a different non-empty
value, or absent or empty without devMode, redirects to
`sessionTimeoutRoute`. -/
theorem steady_ltik_cookie_consistency (cfg : Config) (store : Store)
    (cookies : List (String × String)) (baseUrl : String) (p : LtikPayload)
    (hu : p.user ≠ "") :
    (store.idtoken.filter (fun r =>
        r.iss == p.platformUrl && r.deploymentId == p.deploymentId && r.user == p.user) ≠ [] →
      store.contexttoken.filter (fun r =>
        r.contextId == p.contextId && r.user == p.user) ≠ [] →
      (isNextB (steadyAuth cfg store cookies baseUrl p) = true ↔
        (cookieLookup cookies p.platformCode = some p.user ∨
          (jsFalsyOpt (cookieLookup cookies p.platformCode) = true ∧ cfg.devMode = true)))) ∧
    ((∃ v, cookieLookup cookies p.platformCode = some v ∧ v ≠ "" ∧ v ≠ p.user) ∨
        (jsFalsyOpt (cookieLookup cookies p.platformCode) = true ∧ cfg.devMode = false) →
      steadyAuth cfg store cookies baseUrl p = .redirect (baseUrl ++ cfg.sessionTimeoutRoute)) := by
  constructor
  · intro hid hctx
    obtain ⟨t, hts⟩ : ∃ t, (store.idtoken.filter (fun r =>
        r.iss == p.platformUrl && r.deploymentId == p.deploymentId && r.user == p.user)).head?
          = some t := by
      cases h : store.idtoken.filter (fun r =>
          r.iss == p.platformUrl && r.deploymentId == p.deploymentId && r.user == p.user) with
      | nil => exact absurd h hid
      | cons a l => exact ⟨a, rfl⟩
    obtain ⟨c, hcs⟩ : ∃ c, (store.contexttoken.filter (fun r =>
        r.contextId == p.contextId && r.user == p.user)).head? = some c := by
      cases h : store.contexttoken.filter (fun r =>
          r.contextId == p.contextId && r.user == p.user) with
      | nil => exact absurd h hctx
      | cons a l => exact ⟨a, rfl⟩
    rcases hcu : cookieLookup cookies p.platformCode with _ | v
    · cases hdev : cfg.devMode with
      | false =>
        have hout : steadyAuth cfg store cookies baseUrl p
            = .redirect (baseUrl ++ cfg.sessionTimeoutRoute) := by
          simp [steadyAuth, hcu, jsFalsyOpt, hdev]
        rw [hout]
        simp [isNextB]
      | true =>
        have hout : steadyAuth cfg store cookies baseUrl p = .next t c := by
          simp [steadyAuth, hcu, jsFalsyOpt, hdev, hu, dbGetFirst, hts, hcs]
        rw [hout]
        simp [isNextB, jsFalsyOpt]
    · by_cases hve : v = ""
      · subst hve
        cases hdev : cfg.devMode with
        | false =>
          have hout : steadyAuth cfg store cookies baseUrl p
              = .redirect (baseUrl ++ cfg.sessionTimeoutRoute) := by
            simp [steadyAuth, hcu, jsFalsyOpt, hdev]
          rw [hout]
          simp [isNextB, Ne.symm hu]
        | true =>
          have hout : steadyAuth cfg store cookies baseUrl p = .next t c := by
            simp [steadyAuth, hcu, jsFalsyOpt, hdev, hu, dbGetFirst, hts, hcs]
          rw [hout]
          simp [isNextB, jsFalsyOpt]
      · by_cases hvu : p.user = v
        · subst hvu
          have hout : steadyAuth cfg store cookies baseUrl p = .next t c := by
            simp [steadyAuth, hcu, jsFalsyOpt, hu, dbGetFirst, hts, hcs]
          rw [hout]
          simp [isNextB]
        · have hout : steadyAuth cfg store cookies baseUrl p
              = .redirect (baseUrl ++ cfg.sessionTimeoutRoute) := by
            simp [steadyAuth, hcu, jsFalsyOpt, hve, hvu]
          rw [hout]
          simp [isNextB, jsFalsyOpt, hve]
          intro h
          exact absurd h.symm hvu
  · rintro (⟨v, hv, hv1, hv2⟩ | ⟨hfal, hdev⟩)
    · have hv2' : p.user ≠ v := Ne.symm hv2
      simp [steadyAuth, hv, jsFalsyOpt, hv1, hv2']
    · simp [steadyAuth, hfal, hdev]

/-- C1 witness: with the matching session cookie and both rows stored, a
concrete steady-state request is passed on to the user callback. -/
theorem steady_ltik_cookie_consistency_witness :
    isNextB (steadyAuth defaultConfig
      ⟨[], [], [],
        [⟨"https://lms.example/", "u1", none, ⟨none, none, none, none⟩, none, "d",
          none, none, none⟩],
        [⟨"CID", "/", "u1", "https://tool/", none, none, none, none,
          "LtiResourceLinkRequest", "1.3.0", none⟩]⟩
      [("PC", "u1")] "" ⟨"https://lms.example/", "d", "PC", "CID", "u1", "st"⟩) = true :=
  ((steady_ltik_cookie_consistency defaultConfig
    ⟨[], [], [],
      [⟨"https://lms.example/", "u1", none, ⟨none, none, none, none⟩, none, "d",
        none, none, none⟩],
      [⟨"CID", "/", "u1", "https://tool/", none, none, none, none,
        "LtiResourceLinkRequest", "1.3.0", none⟩]⟩
    [("PC", "u1")] "" ⟨"https://lms.example/", "d", "PC", "CID", "u1", "st"⟩
    (by decide)).1 (by decide) (by decide)).mpr (Or.inl rfl)

/-- C1 counterexample: three concrete steady-state requests refute the claim
as stated, one per forced amendment.  First, a request whose signed cookie
matches the LTIK's user is nevertheless not passed to the callback — the
Store holds no rows and the failed load redirects to `invalidTokenRoute` —
forcing the rows-present proviso on the iff.  Second, with devMode enabled
and no cookie, an LTIK whose user is the empty string is redirected to
`sessionTimeoutRoute` instead of being passed (the empty string fails
`if (user)`) even though both rows for the empty user are stored — forcing
the non-empty-user proviso.  Third, a cookie present with the empty value
(different from the LTIK's user `"u5"`) is treated as absent, so under
devMode the request is passed rather than redirected to
`sessionTimeoutRoute` — forcing the reading `absent or empty`. -/
theorem steady_ltik_cookie_consistency_cex :
    (cookieLookup [("PCx", "u9")]
          (LtikPayload.mk "https://lms.example/" "d" "PCx" "CIDx" "u9" "st").platformCode
        = some (LtikPayload.mk "https://lms.example/" "d" "PCx" "CIDx" "u9" "st").user ∧
      isNextB (steadyAuth defaultConfig ⟨[], [], [], [], []⟩ [("PCx", "u9")] ""
          ⟨"https://lms.example/", "d", "PCx", "CIDx", "u9", "st"⟩) = false ∧
      steadyAuth defaultConfig ⟨[], [], [], [], []⟩ [("PCx", "u9")] ""
          ⟨"https://lms.example/", "d", "PCx", "CIDx", "u9", "st"⟩
        = .redirect "/invalidToken") ∧
    (isNextB (steadyAuth ⟨"/login", "/", "/sessionTimeout", "/invalidToken", "/keys", true⟩
          ⟨[], [], [],
            [⟨"https://lms.example/", "", none, ⟨none, none, none, none⟩, none, "d",
              none, none, none⟩],
            [⟨"CID2", "/", "", "https://tool/", none, none, none, none,
              "LtiResourceLinkRequest", "1.3.0", none⟩]⟩
          [] "" ⟨"https://lms.example/", "d", "PC2", "CID2", "", "st"⟩) = false ∧
      steadyAuth ⟨"/login", "/", "/sessionTimeout", "/invalidToken", "/keys", true⟩
          ⟨[], [], [],
            [⟨"https://lms.example/", "", none, ⟨none, none, none, none⟩, none, "d",
              none, none, none⟩],
            [⟨"CID2", "/", "", "https://tool/", none, none, none, none,
              "LtiResourceLinkRequest", "1.3.0", none⟩]⟩
          [] "" ⟨"https://lms.example/", "d", "PC2", "CID2", "", "st"⟩
        = .redirect "/sessionTimeout") ∧
    (cookieLookup [("PC3", "")]
          (LtikPayload.mk "https://lms.example/" "d" "PC3" "CID3" "u5" "st").platformCode
        = some "" ∧
      isNextB (steadyAuth ⟨"/login", "/", "/sessionTimeout", "/invalidToken", "/keys", true⟩
          ⟨[], [], [],
            [⟨"https://lms.example/", "u5", none, ⟨none, none, none, none⟩, none, "d",
              none, none, none⟩],
            [⟨"CID3", "/", "u5", "https://tool/", none, none, none, none,
              "LtiResourceLinkRequest", "1.3.0", none⟩]⟩
          [("PC3", "")] "" ⟨"https://lms.example/", "d", "PC3", "CID3", "u5", "st"⟩) = true) :=
  ⟨⟨rfl, rfl, rfl⟩, ⟨rfl, rfl⟩, ⟨rfl, rfl⟩⟩

/-- C3 (amended): a steady-state request with a valid LTIK and a matching
session cookie whose IdToken or ContextToken row is absent from the Store is
redirected to `invalidTokenRoute` (the `throw` lands in the catch-all
handler), not to `sessionTimeoutRoute`. -/
theorem steady_missing_rows (cfg : Config) (store : Store)
    (cookies : List (String × String)) (baseUrl : String) (p : LtikPayload)
    (hu : p.user ≠ "")
    (hcookie : cookieLookup cookies p.platformCode = some p.user)
    (hmiss : store.idtoken.filter (fun r =>
        r.iss == p.platformUrl && r.deploymentId == p.deploymentId && r.user == p.user) = [] ∨
      store.contexttoken.filter (fun r =>
        r.contextId == p.contextId && r.user == p.user) = []) :
    steadyAuth cfg store cookies baseUrl p = .redirect (baseUrl ++ cfg.invalidTokenRoute) := by
  rcases hmiss with hm | hm
  · simp [steadyAuth, hcookie, jsFalsyOpt, hu, dbGetFirst, hm]
  · cases hι : store.idtoken.filter (fun r =>
        r.iss == p.platformUrl && r.deploymentId == p.deploymentId && r.user == p.user) with
    | nil => simp [steadyAuth, hcookie, jsFalsyOpt, hu, dbGetFirst, hι]
    | cons a l => simp [steadyAuth, hcookie, jsFalsyOpt, hu, dbGetFirst, hι, hm]

/-- C3 witness: a valid LTIK with its matching cookie but an empty Store is
redirected to the default `invalidTokenRoute`. -/
theorem steady_missing_rows_witness :
    steadyAuth defaultConfig ⟨[], [], [], [], []⟩ [("PCw", "u2")] ""
        ⟨"https://lms.example/", "d", "PCw", "CIDw", "u2", "st"⟩
      = .redirect "/invalidToken" :=
  steady_missing_rows defaultConfig ⟨[], [], [], [], []⟩ [("PCw", "u2")] ""
    ⟨"https://lms.example/", "d", "PCw", "CIDw", "u2", "st"⟩
    (by decide) rfl (Or.inl rfl)

/-- C3 counterexample: at the same concrete input the claim's stated target
`sessionTimeoutRoute` is NOT where the request goes — the redirect is to
`invalidTokenRoute`, and the two default routes differ. -/
theorem steady_missing_rows_cex :
    steadyAuth defaultConfig ⟨[], [], [], [], []⟩ [("PCz", "u3")] ""
        ⟨"https://lms.example/", "d", "PCz", "CIDz", "u3", "st"⟩
      = .redirect "/invalidToken" ∧
    steadyAuth defaultConfig ⟨[], [], [], [], []⟩ [("PCz", "u3")] ""
        ⟨"https://lms.example/", "d", "PCz", "CIDz", "u3", "st"⟩
      ≠ .redirect "/sessionTimeout" :=
  ⟨rfl, by decide⟩

/-- C7 (amended): a login-phase error occurring before the state cookie is
set (a falsy `iss` makes `getPlatform` throw) yields HTTP 400 with no cookie
set; but an error while building the authentication request, after
`res.cookie` has run, yields HTTP 400 with the `state<state>` cookie already
set on the response. -/
theorem login_error_behaviour (store : Store) (state : String) :
    (∀ iss, jsTruthyS iss = false →
      loginHandler store iss state false = ⟨some 400, none, []⟩) ∧
    (∀ u platform, u ≠ "" → getPlatformModel store u = some platform →
      loginHandler store (some u) state true
        = ⟨some 400, none, [("state" ++ state, u)]⟩) := by
  constructor
  · intro iss hiss
    simp [loginHandler, hiss]
  · intro u platform hu hplat
    have hu' : (u == "") = false := by simp [hu]
    simp [loginHandler, jsTruthyS, hu', hplat]

/-- C7 witness: with a registered platform, a failing auth-request build on a
concrete login request answers 400 with the state cookie already set. -/
theorem login_error_behaviour_witness :
    loginHandler
        ⟨[⟨"Lms", "https://lms.example/", "C", "https://lms.example/auth",
          "https://lms.example/token", "kid1", ⟨"RSA_KEY", "PEM"⟩⟩], [], [], [], []⟩
        (some "https://lms.example/") "stw" true
      = ⟨some 400, none, [("state" ++ "stw", "https://lms.example/")]⟩ :=
  (login_error_behaviour
    ⟨[⟨"Lms", "https://lms.example/", "C", "https://lms.example/auth",
      "https://lms.example/token", "kid1", ⟨"RSA_KEY", "PEM"⟩⟩], [], [], [], []⟩
    "stw").2 "https://lms.example/"
    ⟨"Lms", "https://lms.example/", "C", "https://lms.example/auth",
      "https://lms.example/token", "kid1", ⟨"RSA_KEY", "PEM"⟩⟩
    (by decide) rfl

/-- C7 counterexample: the claim says any erroring login step yields 400
with no cookie set; concretely, an error after the cookie write yields 400
with a non-empty cookie list. -/
theorem login_error_behaviour_cex :
    (loginHandler
        ⟨[⟨"Lms", "https://lms.example/", "C", "https://lms.example/auth",
          "https://lms.example/token", "kid1", ⟨"RSA_KEY", "PEM"⟩⟩], [], [], [], []⟩
        (some "https://lms.example/") "abc" true).status = some 400 ∧
    (loginHandler
        ⟨[⟨"Lms", "https://lms.example/", "C", "https://lms.example/auth",
          "https://lms.example/token", "kid1", ⟨"RSA_KEY", "PEM"⟩⟩], [], [], [], []⟩
        (some "https://lms.example/") "abc" true).setCookies ≠ [] :=
  ⟨rfl, by decide⟩

/-- C8: `whitelist()` called with no routes does not throw — the
`if (!routes) throw new Error('No route passed.')` guard tests a
rest-parameter array, which is truthy even when empty, so the call silently
installs an empty whitelist. -/
theorem whitelist_noargs_no_throw :
    whitelistModel [] = .ok [] :=
  rfl

/-- C9: every LTIK minted at session materialization (signed over
`platformUrl, deploymentId, platformCode, contextId, user, s` with the
master encryption key) verifies under the same key to exactly the payload
that was signed. -/
theorem ltik_roundtrip (key : String) (cfg : Config) (store : Store)
    (req : CallbackRequest) (claims : Claims) :
    ∃ t, (callbackBranch key cfg store req (.ok claims)).mintedLtik = some t ∧
      ltikVerify key t = some
        { platformUrl := claims.iss, deploymentId := claims.deployment_id,
          platformCode := encodeURIComponent ("lti" ++
            bufferBase64 (claims.iss ++ claims.deployment_id)),
          contextId := encodeURIComponent (claims.iss ++ claims.deployment_id ++
            (match claims.context with | some c => c.id | none => "NF") ++ "_" ++
            (match claims.resource_link with | some r => r.id | none => "NF")),
          user := claims.sub, s := req.state } :=
  ⟨_, rfl, ltikVerify_ltikSign _ _⟩

/-- C10: `getAllPlatforms` always returns an array: the empty array when the
Store's `Get` comes back falsy, and otherwise one `Platform` per stored
row. -/
theorem getAllPlatforms_total (store : Store) :
    (dbGetAll store.platform = none → getAllPlatforms store = []) ∧
      (∀ rows, dbGetAll store.platform = some rows →
        getAllPlatforms store = rows.map mkPlatform ∧
        (getAllPlatforms store).length = rows.length) := by
  constructor
  · intro h
    simp [getAllPlatforms, h]
  · intro rows h
    simp [getAllPlatforms, h, mkPlatform]

/-- C10 witness: on the empty Store, `Get` is falsy and `getAllPlatforms`
returns the empty array. -/
theorem getAllPlatforms_total_witness :
    getAllPlatforms ⟨[], [], [], [], []⟩ = [] :=
  (getAllPlatforms_total ⟨[], [], [], [], []⟩).1 rfl

end Ltijs
